import Mathlib

/-!
Shallow embedding of `testsupport/wait/awaitility.go` (package `wait` of the
toolchain-e2e test-support library).

Modelling conventions:
* `time.Duration` is an `Int` counting nanoseconds (`second = 10^9`).
* `float64` metric values are modelled by `Rat`: the metrics in play are
  integer-valued counters represented as floats, on which Go's `+` and `==`
  are exact, so `Rat` arithmetic is a faithful model of the values involved.
* Go errors are the inductive `GoError`; a Go `error` result is
  `Option GoError` (`none` = `nil`).
* `t.Fatal` aborts the calling test immediately (nothing after it runs); a
  function that may call `t.Fatal` is modelled with `Except String`, the
  `Except.error` carrying the fatal message.
* The poll engine is `wait.Poll` from the vendored dependency
  `k8s.io/apimachinery/pkg/util/wait`.  Its contract (per that library's code
  and documentation): the `ConditionFunc` is invoked once per tick; if it
  returns a non-nil error, polling STOPS immediately and that error is
  returned (checked before the `done` flag); if it returns `done=true` with a
  nil error, `Poll` returns nil; otherwise it retries until the deadline, and
  on deadline expiry returns `ErrWaitTimeout`.  Time is abstracted: `fuel` is
  the number of ticks the deadline allows, and the condition function receives
  the attempt index so that an environment can change between attempts.
* Go maps are reference types: an `Awaitility` holds a reference (`Nat`) into
  a `Heap` of association lists, so that the struct-copy in `copy()` copies
  the reference, exactly as `*result = *a` does in Go.
-/

/-! ### Durations (`time.Duration` in nanoseconds) and package constants -/

def millisecond : Int := 1000000

def second : Int := 1000000000

def DefaultRetryInterval : Int := 100 * millisecond

def DefaultTimeout : Int := 120 * second

def ToolchainClusterConditionTimeout : Int := 180 * second

/-! ### Go errors -/

/-- Errors observable by the wait package: a k8s NotFound error (recognised by
`apierrors.IsNotFound`), any other transport/server error, and the
`ErrWaitTimeout` produced by `wait.Poll` on deadline expiry. -/
inductive GoError where
  | notFound : GoError
  | transport : String → GoError
  | waitTimeout : GoError
deriving DecidableEq, Repr

/-- Model of `apierrors.IsNotFound`. -/
def apierrorsIsNotFound : GoError → Bool
  | GoError.notFound => true
  | _ => false

/-! ### Domain objects (only the fields the wait code reads) -/

/-- A `corev1.Service`; the wait code only fetches it, never inspects fields. -/
structure Service where
  name : String
  namespaceName : String
deriving DecidableEq, Repr

/-- A `toolchainv1alpha1.ToolchainClusterCondition`: a condition type and a
status (`corev1.ConditionStatus` is a string). -/
structure ToolchainClusterCondition where
  type : String
  status : String
deriving DecidableEq, Repr

/-- The `Status.Conditions` part of a `ToolchainCluster`, plus the metadata the
criteria in this file read (name and labels). -/
structure ToolchainCluster where
  name : String
  labels : List (String × String)
  conditions : List ToolchainClusterCondition
deriving DecidableEq, Repr

/-- Model of `containsClusterCondition(conditions, contains)`: a nil `contains`
matches anything; otherwise the first condition with the matching `Type`
decides via status equality, and absence of the type is a non-match. -/
def containsClusterCondition (conditions : List ToolchainClusterCondition)
    (contains : Option ToolchainClusterCondition) : Bool :=
  match contains with
  | none => true
  | some want =>
    match conditions.find? (fun c => c.type == want.type) with
    | some c => want.status == c.status
    | none => false

/-! ### Go map semantics: a heap of `map[string]float64` values -/

/-- Contents of one Go `map[string]float64`, as an association list with
unique keys (first match wins, like Go map lookup). -/
abbrev BaselineMap := List (String × Rat)

/-- Go map indexing `m[k]`: a missing key yields the zero value `0`. -/
def mapIndex : BaselineMap → String → Rat
  | [], _ => 0
  | (k0, v0) :: rest, k => if k0 == k then v0 else mapIndex rest k

/-- Go map assignment `m[k] = v`: replace the existing entry or append one. -/
def mapInsert : BaselineMap → String → Rat → BaselineMap
  | [], k, v => [(k, v)]
  | (k0, v0) :: rest, k, v =>
    if k0 == k then (k, v) :: rest else (k0, v0) :: mapInsert rest k v

/-- The heap holding every live `map[string]float64`; a map value in a Go
struct is a reference (index) into this heap. -/
structure Heap where
  maps : List BaselineMap
deriving DecidableEq, Repr

/-- Dereference a map: read the contents behind reference `r`. -/
def Heap.read (h : Heap) (r : Nat) : BaselineMap :=
  h.maps.getD r []

/-- Overwrite the map behind reference `r`. -/
def Heap.write (h : Heap) (r : Nat) (m : BaselineMap) : Heap :=
  ⟨h.maps.set r m⟩

/-- Go `(*m)[k] = v` through reference `r`. -/
def Heap.mapWrite (h : Heap) (r : Nat) (k : String) (v : Rat) : Heap :=
  h.write r (mapInsert (h.read r) k v)

/-! ### The `Awaitility` struct and its retry options -/

/-- The `Awaitility` struct.  `Client` and `RestConfig` are opaque shared
handles (modelled as a reference number); `baselineValues` is a Go map, i.e. a
reference into the `Heap`. -/
structure Awaitility where
  clientRef : Nat
  clusterName : String
  namespaceName : String
  retryInterval : Int
  timeout : Int
  metricsURL : String
  baselineValues : Nat
deriving DecidableEq, Repr

/-- Model of `(a *Awaitility) copy()`: `*result = *a` copies every field of
the struct, including the map reference `baselineValues` (Go copies the map
header, not the map contents). -/
def Awaitility.copy (a : Awaitility) : Awaitility := a

/-- The two implementations of the `RetryOption` interface in the source:
`RetryInterval` and `TimeoutOption` (both `time.Duration` wrappers). -/
inductive RetryOption where
  | retryIntervalOpt : Int → RetryOption
  | timeoutOpt : Int → RetryOption
deriving DecidableEq, Repr

/-- `option.apply(result)` for each of the two `RetryOption` implementations. -/
def RetryOption.apply : RetryOption → Awaitility → Awaitility
  | RetryOption.retryIntervalOpt d, a => { a with retryInterval := d }
  | RetryOption.timeoutOpt d, a => { a with timeout := d }

/-- Model of `WithRetryOptions`: copy the struct, then apply each option in
order to the copy. -/
def Awaitility.withRetryOptions (a : Awaitility) (options : List RetryOption) :
    Awaitility :=
  options.foldl (fun result option => option.apply result) a.copy

/-! ### The poll engine: `wait.Poll` from k8s.io/apimachinery -/

/-- Model of `wait.Poll(interval, timeout, cond)`.  `fuel` is the number of
ticks the deadline allows and `i` the current attempt index.  Each tick runs
`cond i`; a non-nil error from `cond` is returned immediately (this check
precedes the `done` check in the library), `done=true` returns nil, and an
exhausted deadline returns `ErrWaitTimeout`. -/
def waitPoll : Nat → (Nat → Bool × Option GoError) → Nat → Option GoError
  | 0, _, _ => some GoError.waitTimeout
  | fuel + 1, cond, i =>
    let r := cond i
    match r.2 with
    | some e => some e
    | none => if r.1 then none else waitPoll fuel cond (i + 1)

/-! ### Wait operations built on the poll engine

Each operation's fetches are abstracted by an environment function giving the
result of the Get/fetch performed at attempt `i`; `Except GoError x` stands
for Go's `(x, err)` result of a client Get. -/

/-- The condition closure of `WaitForService`: Get the service; a NotFound
error is swallowed (`return false, nil`, keep polling); any other error is
returned; a successful Get returns `true, nil`. -/
def waitForServiceCond (get : Nat → Except GoError Service) (i : Nat) :
    Bool × Option GoError :=
  match get i with
  | Except.error e =>
    if apierrorsIsNotFound e then (false, none) else (false, some e)
  | Except.ok _ => (true, none)

/-- Model of `WaitForService` (error component of its result): run the poll
engine on `waitForServiceCond` with `a.RetryInterval`/`a.Timeout`, abstracted
into `fuel` ticks. -/
def waitForService (get : Nat → Except GoError Service) (fuel : Nat) :
    Option GoError :=
  waitPoll fuel (waitForServiceCond get) 0

/-- The condition closure of `WaitForNamedToolchainClusterWithCondition`:
Get the cluster by name; ANY Get error (including NotFound) is returned as
the condition's error; otherwise `done` is whether the cluster carries the
wanted condition (the trailing `return false, err` uses the named return
`err`, which is nil there). -/
def waitForNamedToolchainClusterCond (get : Nat → Except GoError ToolchainCluster)
    (condition : Option ToolchainClusterCondition) (i : Nat) :
    Bool × Option GoError :=
  match get i with
  | Except.error e => (false, some e)
  | Except.ok c =>
    if containsClusterCondition c.conditions condition then (true, none)
    else (false, none)

/-- Model of `WaitForNamedToolchainClusterWithCondition` (error component). -/
def waitForNamedToolchainClusterWithCondition
    (get : Nat → Except GoError ToolchainCluster)
    (condition : Option ToolchainClusterCondition) (fuel : Nat) :
    Option GoError :=
  waitPoll fuel (waitForNamedToolchainClusterCond get condition) 0

/-! ### The poll deadline each operation passes to `wait.Poll` -/

/-- Timeout selection in `WaitForToolchainClusterWithCondition`:
`timeout := a.Timeout; if condition != nil { timeout = ToolchainClusterConditionTimeout }`. -/
def waitForToolchainClusterWithConditionTimeout (a : Awaitility)
    (condition : Option ToolchainClusterCondition) : Int :=
  match condition with
  | some _ => ToolchainClusterConditionTimeout
  | none => a.timeout

/-- Timeout selection in `WaitForNamedToolchainClusterWithCondition` (same
shape as the unnamed variant). -/
def waitForNamedToolchainClusterWithConditionTimeout (a : Awaitility)
    (condition : Option ToolchainClusterCondition) : Int :=
  match condition with
  | some _ => ToolchainClusterConditionTimeout
  | none => a.timeout

/-- `WaitForService` polls with `wait.Poll(a.RetryInterval, a.Timeout, ...)`. -/
def waitForServiceTimeout (a : Awaitility) : Int := a.timeout

/-- `WaitForRouteToBeAvailable` polls with deadline `a.Timeout`. -/
def waitForRouteToBeAvailableTimeout (a : Awaitility) : Int := a.timeout

/-- `WaitUntiltMetricHasValue` polls with deadline `a.Timeout`. -/
def waitUntiltMetricHasValueTimeout (a : Awaitility) : Int := a.timeout

/-- `WaitUntilMetricHasValueOrMore` polls with deadline `a.Timeout`. -/
def waitUntilMetricHasValueOrMoreTimeout (a : Awaitility) : Int := a.timeout

/-- `WaitUntilMetricHasValueOrLess` polls with deadline `a.Timeout`. -/
def waitUntilMetricHasValueOrLessTimeout (a : Awaitility) : Int := a.timeout

/-- `GetMemoryUsage` polls with deadline `a.Timeout`. -/
def getMemoryUsageTimeout (a : Awaitility) : Int := a.timeout

/-- `CreateNamespace` polls with deadline `a.Timeout`. -/
def createNamespaceTimeout (a : Awaitility) : Int := a.timeout

/-- `WaitForToolchainCluster` polls with deadline `a.Timeout`. -/
def waitForToolchainClusterTimeout (a : Awaitility) : Int := a.timeout

/-- `UpdateToolchainCluster` polls with deadline `a.Timeout`. -/
def updateToolchainClusterTimeout (a : Awaitility) : Int := a.timeout

/-- `WaitForDeploymentToGetReady` polls with
`wait.Poll(a.RetryInterval, 6*a.Timeout, ...)`. -/
def waitForDeploymentToGetReadyTimeout (a : Awaitility) : Int := 6 * a.timeout

/-! ### Metric operations -/

/-- The `t.Fatal` message guarding the label-pair lists. -/
def labelPairsFatalMsg : String := "`labelAndValues` must be pairs of labels and values"

/-- Model of `strings.Join(elems, sep)`. -/
def stringsJoin (elems : List String) (sep : String) : String :=
  String.intercalate sep elems

/-- Model of `baselineKey(t, name, labelAndValues...)`: `t.Fatal` on an
odd-length pair list, else join the name and the pairs (in the given order)
with commas: `strings.Join(append([]string{name}, labelAndValues...), ",")`. -/
def baselineKey (name : String) (labelAndValues : List String) :
    Except String String :=
  if labelAndValues.length % 2 != 0 then Except.error labelPairsFatalMsg
  else Except.ok (stringsJoin (name :: labelAndValues) ",")

/-- The decision of one poll attempt of `WaitUntiltMetricHasValue`, given the
`(value, err)` pair returned by `metrics.GetMetricValue`:
`(value == expectedValue && err == nil) || (expectedValue == 0 && value == 0)`. -/
def waitUntiltMetricHasValueDone (expectedValue value : Rat)
    (err : Option GoError) : Bool :=
  (value == expectedValue && err.isNone) || (expectedValue == 0 && value == 0)

/-- Model of `WaitUntiltMetricHasValue`: no validation of `labels` is
performed; the poll loop is entered directly, each attempt fetching
`(value, err) := metrics.GetMetricValue(cfg, url, family, labels)` (abstracted
by `fetch family labels i`) and returning
`(waitUntiltMetricHasValueDone ..., nil)` — the condition never errors, so
only the deadline ends an unsuccessful wait.  The `Except.error` branch (a
`t.Fatal` before polling) is never taken; the `Option GoError` inside `ok` is
the poll result that `require.NoError` then checks. -/
def waitUntiltMetricHasValue (fetch : String → List String → Nat → Rat × Option GoError)
    (family : String) (expectedValue : Rat) (labels : List String) (fuel : Nat) :
    Except String (Option GoError) :=
  Except.ok (waitPoll fuel (fun i =>
    let vr := fetch family labels i
    (waitUntiltMetricHasValueDone expectedValue vr.1 vr.2, none)) 0)

/-- Model of `WaitForMetricDelta`: build the baseline key (a `t.Fatal` on odd
labels aborts before any polling), read the stored baseline for the key out of
the map (`a.baselineValues[key]`, missing key = 0), add `delta`, and delegate
to `WaitUntiltMetricHasValue` with the adjusted value. -/
def waitForMetricDelta (h : Heap) (a : Awaitility)
    (fetch : String → List String → Nat → Rat × Option GoError)
    (family : String) (delta : Rat) (labels : List String) (fuel : Nat) :
    Except String (Option GoError) :=
  match baselineKey family labels with
  | Except.error msg => Except.error msg
  | Except.ok key =>
    let adjustedValue := mapIndex (h.read a.baselineValues) key + delta
    waitUntiltMetricHasValue fetch family adjustedValue labels fuel

/-- Model of `WaitForMetricBaseline`: build the baseline key, then delegate to
`WaitUntiltMetricHasValue` with the stored baseline value
`a.baselineValues[key]` itself. -/
def waitForMetricBaseline (h : Heap) (a : Awaitility)
    (fetch : String → List String → Nat → Rat × Option GoError)
    (family : String) (labels : List String) (fuel : Nat) :
    Except String (Option GoError) :=
  match baselineKey family labels with
  | Except.error msg => Except.error msg
  | Except.ok key =>
    waitUntiltMetricHasValue fetch family (mapIndex (h.read a.baselineValues) key)
      labels fuel

/-- Model of `GetMetricValueOrZero`: `t.Fatal` on an odd-length pair list;
otherwise one fetch, returning the value when `err == nil` and `0` otherwise. -/
def getMetricValueOrZero (fetch : String → List String → Rat × Option GoError)
    (family : String) (labelAndValues : List String) : Except String Rat :=
  if labelAndValues.length % 2 != 0 then Except.error labelPairsFatalMsg
  else
    match fetch family labelAndValues with
    | (value, none) => Except.ok value
    | (_, some _) => Except.ok 0

/-! ### Criteria composition over ToolchainCluster objects -/

/-- `ToolchainClusterWaitCriterion`: a wrapper around a pure
`Match(*ToolchainCluster) bool` predicate. -/
structure ToolchainClusterWaitCriterion where
  Match : ToolchainCluster → Bool

/-- Model of `matchToolchainClusterWaitCriterion`: loop over the criteria and
return `false` on the first non-matching one, `true` if all match. -/
def matchToolchainClusterWaitCriterion (actual : ToolchainCluster) :
    List ToolchainClusterWaitCriterion → Bool
  | [] => true
  | c :: criteria =>
    c.Match actual && matchToolchainClusterWaitCriterion actual criteria

/-- `UntilToolchainClusterHasName`: name equality criterion. -/
def UntilToolchainClusterHasName (expectedName : String) :
    ToolchainClusterWaitCriterion :=
  ⟨fun actual => actual.name == expectedName⟩

/-- `UntilToolchainClusterHasCondition`: condition-presence criterion. -/
def UntilToolchainClusterHasCondition (expected : ToolchainClusterCondition) :
    ToolchainClusterWaitCriterion :=
  ⟨fun actual => containsClusterCondition actual.conditions (some expected)⟩

/-! ### Concrete instances used to exercise the definitions -/

/-- A representative `Awaitility` with the package's default retry settings
and the first heap slot as its baseline map. -/
def sampleAwaitility : Awaitility :=
  { clientRef := 0
    clusterName := "host"
    namespaceName := "toolchain-host-operator"
    retryInterval := DefaultRetryInterval
    timeout := DefaultTimeout
    metricsURL := "https://metrics.example.test"
    baselineValues := 0 }

/-- A heap holding one (empty) baseline map at reference 0. -/
def sampleHeap0 : Heap := ⟨[[]]⟩

/-- The waiter obtained by specializing `sampleAwaitility` with a
`TimeoutOption` override. -/
def specializedAwaitility : Awaitility :=
  Awaitility.withRetryOptions sampleAwaitility [RetryOption.timeoutOpt (60 * second)]

/-- A metric fetch that always answers `(5, nil)`. -/
def sampleFetch : String → List String → Nat → Rat × Option GoError :=
  fun _ _ _ => (5, none)

/-- A one-shot metric fetch that always answers `(5, nil)`. -/
def sampleFetchOnce : String → List String → Rat × Option GoError :=
  fun _ _ => (5, none)

/-- A poll condition that always reports `(false, transport error)`. -/
def alwaysErrCond : Nat → Bool × Option GoError :=
  fun _ => (false, some (GoError.transport "boom"))

/-- A service Get that always fails with a k8s NotFound error. -/
def alwaysNotFoundServiceGet : Nat → Except GoError Service :=
  fun _ => Except.error GoError.notFound

/-- A ToolchainCluster Get that always fails with a k8s NotFound error. -/
def alwaysNotFoundClusterGet : Nat → Except GoError ToolchainCluster :=
  fun _ => Except.error GoError.notFound

/-- A representative `ToolchainCluster` object. -/
def sampleToolchainCluster : ToolchainCluster :=
  { name := "member-1"
    labels := [("namespace", "toolchain-member-operator"), ("type", "member")]
    conditions := [{ type := "Ready", status := "True" }] }

/-- A name-equality criterion for the sample cluster. -/
def sampleCriterionName : ToolchainClusterWaitCriterion :=
  UntilToolchainClusterHasName "member-1"

/-- A condition-presence criterion for the sample cluster. -/
def sampleCriterionCondition : ToolchainClusterWaitCriterion :=
  UntilToolchainClusterHasCondition { type := "Ready", status := "True" }

/-! ### Helper lemmas -/

/-- A condition that keeps answering `(false, nil)` makes the engine run to
deadline expiry: the result is `ErrWaitTimeout`, from any attempt index. -/
theorem waitPoll_timeout_of_continue (cond : Nat → Bool × Option GoError)
    (hc : ∀ j, cond j = (false, none)) :
    ∀ (fuel i : Nat), waitPoll fuel cond i = some GoError.waitTimeout := by
  intro fuel
  induction fuel with
  | zero => intro i; rfl
  | succ n ih => intro i; simp [waitPoll, hc i, ih]

/-- One poll tick whose condition reports a non-nil error makes the engine
return exactly that error, whatever the `done` flag said. -/
theorem waitPoll_abort_of_error (fuel : Nat) (cond : Nat → Bool × Option GoError)
    (i : Nat) (b : Bool) (e : GoError) (hcond : cond i = (b, some e)) :
    waitPoll (fuel + 1) cond i = some e := by
  simp [waitPoll, hcond]

/-- Neither `RetryOption` implementation touches the baseline map reference. -/
theorem RetryOption.apply_baselineValues (o : RetryOption) (a : Awaitility) :
    (o.apply a).baselineValues = a.baselineValues := by
  cases o <;> rfl

/-- Specializing a waiter preserves the baseline map reference: the copy and
the original point at the same Go map. -/
theorem withRetryOptions_baselineValues (a : Awaitility) (options : List RetryOption) :
    (a.withRetryOptions options).baselineValues = a.baselineValues := by
  suffices hgen : ∀ (opts : List RetryOption) (acc : Awaitility),
      (opts.foldl (fun result option => option.apply result) acc).baselineValues
        = acc.baselineValues by
    exact hgen options a.copy
  intro opts
  induction opts with
  | nil => intro acc; rfl
  | cons o rest ih =>
    intro acc
    rw [List.foldl_cons, ih, RetryOption.apply_baselineValues]

/-- Writing slot `i` of a list and reading it back (with any default) yields
the written value, provided the slot exists. -/
theorem getD_set_self {α : Type} (l : List α) (i : Nat) (x d : α)
    (hi : i < l.length) : (l.set i x).getD i d = x := by
  induction l generalizing i with
  | nil => simp at hi
  | cons hd tl ih =>
    cases i with
    | zero => rfl
    | succ n =>
      simp only [List.set_cons_succ, List.getD_cons_succ]
      exact ih n (by simpa using hi)

/-- Reading back the key just written into a Go map yields the written value. -/
theorem mapIndex_mapInsert_self (m : BaselineMap) (k : String) (v : Rat) :
    mapIndex (mapInsert m k v) k = v := by
  induction m with
  | nil => simp [mapInsert, mapIndex]
  | cons p rest ih =>
    obtain ⟨k0, v0⟩ := p
    by_cases hk : k0 == k
    · simp [mapInsert, mapIndex, hk]
    · simp [mapInsert, mapIndex, hk, ih]

/-- A key that no entry of the map carries reads as the zero value `0`. -/
theorem mapIndex_eq_zero_of_not_mem (m : BaselineMap) (k : String)
    (hk : ∀ p ∈ m, p.1 ≠ k) : mapIndex m k = 0 := by
  induction m with
  | nil => rfl
  | cons p rest ih =>
    obtain ⟨k0, v0⟩ := p
    have hne : ¬(k0 == k) = true := by
      simpa using hk (k0, v0) (List.mem_cons_self _ _)
    simp only [mapIndex, hne, if_neg, Bool.false_eq_true, if_false]
    exact ih (fun q hq => hk q (List.mem_cons_of_mem _ hq))

/-- The composite criterion check equals `List.all` of the individual checks. -/
theorem matchToolchainClusterWaitCriterion_eq_all (actual : ToolchainCluster) :
    ∀ (criteria : List ToolchainClusterWaitCriterion),
      matchToolchainClusterWaitCriterion actual criteria
        = criteria.all (fun c => c.Match actual) := by
  intro criteria
  induction criteria with
  | nil => rfl
  | cons c rest ih => simp [matchToolchainClusterWaitCriterion, ih]

/-- Permuting the criteria list never changes the composite boolean result. -/
theorem matchToolchainClusterWaitCriterion_perm_invariant (actual : ToolchainCluster)
    {l₁ l₂ : List ToolchainClusterWaitCriterion} (hperm : l₁.Perm l₂) :
    matchToolchainClusterWaitCriterion actual l₁
      = matchToolchainClusterWaitCriterion actual l₂ := by
  induction hperm with
  | nil => rfl
  | cons x h ih => simp [matchToolchainClusterWaitCriterion, ih]
  | swap x y l =>
    simp only [matchToolchainClusterWaitCriterion, ← Bool.and_assoc]
    rw [Bool.and_comm (y.Match actual) (x.Match actual)]
  | trans h₁ h₂ ih₁ ih₂ => exact ih₁.trans ih₂

/-! ### The claims -/

/-- Claim C1 (counterexample): with a fetch that keeps failing with a k8s
NotFound error ("the target does not exist yet"),
`WaitForNamedToolchainClusterWithCondition` terminates at once with that
NotFound error, even though the deadline allowed 5 more ticks — it does not
keep polling and does not end in deadline expiry (`ErrWaitTimeout`).  This
refutes the claim that `(done=false, non-nil error)` is uniformly treated as
"keep polling" and that only timeout aborts a wait. -/
theorem waitForNamedToolchainCluster_notFound_terminates_early :
    waitForNamedToolchainClusterWithCondition alwaysNotFoundClusterGet none 5
      = some GoError.notFound
    ∧ some GoError.notFound ≠ some GoError.waitTimeout :=
  ⟨rfl, by decide⟩

/-- Claim C1 (amended): the poll engine aborts immediately with the
condition's error whenever an attempt reports a non-nil error, whatever the
`done` flag; "keep polling while the target does not exist" holds only where
the call site itself maps the NotFound error to `(false, nil)` — as
`WaitForService` does, which therefore runs to deadline expiry when the
service never appears — while `WaitForNamedToolchainClusterWithCondition`
returns fetch errors to the engine, so a NotFound fetch error terminates that
wait at once with the NotFound error. -/
theorem pollError_aborts_notFound_swallowed_only_at_callsites
    (fuel : Nat) (cond : Nat → Bool × Option GoError) (i : Nat) (b : Bool)
    (e : GoError) (getS : Nat → Except GoError Service)
    (getC : Nat → Except GoError ToolchainCluster)
    (condition : Option ToolchainClusterCondition)
    (hcond : cond i = (b, some e))
    (hS : ∀ j, getS j = Except.error GoError.notFound)
    (hC : getC 0 = Except.error GoError.notFound) :
    waitPoll (fuel + 1) cond i = some e
    ∧ waitForService getS fuel = some GoError.waitTimeout
    ∧ waitForNamedToolchainClusterWithCondition getC condition (fuel + 1)
        = some GoError.notFound := by
  refine ⟨waitPoll_abort_of_error fuel cond i b e hcond, ?_, ?_⟩
  · exact waitPoll_timeout_of_continue _
      (fun j => by simp [waitForServiceCond, hS j, apierrorsIsNotFound]) fuel 0
  · simp [waitForNamedToolchainClusterWithCondition, waitPoll,
      waitForNamedToolchainClusterCond, hC]

/-- Claim C1 (witness): the amended theorem applied to the concrete
always-erroring condition and the concrete always-NotFound Gets. -/
theorem pollError_aborts_witness :
    waitPoll 3 alwaysErrCond 0 = some (GoError.transport "boom")
    ∧ waitForService alwaysNotFoundServiceGet 2 = some GoError.waitTimeout
    ∧ waitForNamedToolchainClusterWithCondition alwaysNotFoundClusterGet none 3
        = some GoError.notFound :=
  pollError_aborts_notFound_swallowed_only_at_callsites 2 alwaysErrCond 0 false
    (GoError.transport "boom") alwaysNotFoundServiceGet alwaysNotFoundClusterGet
    none rfl (fun _ => rfl) rfl

/-- Claim C2 (counterexample): `b := a.WithRetryOptions(TimeoutOption)` yields
a waiter with a different timeout, yet writing the baseline value 7 for key
"usersignups" through `b`'s store is observable through `a`'s store: before
the write `a` reads 0, after the write through `b` it reads 7.  The baseline
store is shared, not an independent copy. -/
theorem withRetryOptions_baseline_write_visible_through_original :
    mapIndex (sampleHeap0.read sampleAwaitility.baselineValues) "usersignups" = 0
    ∧ mapIndex ((sampleHeap0.mapWrite specializedAwaitility.baselineValues
        "usersignups" 7).read sampleAwaitility.baselineValues) "usersignups" = 7
    ∧ specializedAwaitility.timeout ≠ sampleAwaitility.timeout := by
  refine ⟨rfl, rfl, by decide⟩

/-- Claim C2 (amended): `copy()` copies the struct shallowly, so
`WithRetryOptions` yields a waiter whose `baselineValues` field is the same
map reference as the original's; consequently every baseline write performed
through the specialized copy is observable through the original (and vice
versa).  Only the scalar configuration fields are independent. -/
theorem withRetryOptions_shares_baselineValues (a : Awaitility)
    (opts : List RetryOption) (h : Heap) (k : String) (v : Rat)
    (href : a.baselineValues < h.maps.length) :
    (a.withRetryOptions opts).baselineValues = a.baselineValues
    ∧ mapIndex ((h.mapWrite (a.withRetryOptions opts).baselineValues k v).read
        a.baselineValues) k = v := by
  refine ⟨withRetryOptions_baselineValues a opts, ?_⟩
  rw [withRetryOptions_baselineValues a opts]
  show mapIndex ((h.write a.baselineValues
    (mapInsert (h.read a.baselineValues) k v)).read a.baselineValues) k = v
  show mapIndex ((h.maps.set a.baselineValues
    (mapInsert (h.read a.baselineValues) k v)).getD a.baselineValues []) k = v
  rw [getD_set_self _ _ _ _ href]
  exact mapIndex_mapInsert_self _ k v

/-- Claim C2 (witness): the amended theorem at the concrete sample waiter,
one-slot heap, key "usersignups" and value 7. -/
theorem withRetryOptions_shares_baselineValues_witness :
    sampleAwaitility.baselineValues < sampleHeap0.maps.length
    ∧ ((sampleAwaitility.withRetryOptions [RetryOption.timeoutOpt (60 * second)]).baselineValues
        = sampleAwaitility.baselineValues
      ∧ mapIndex ((sampleHeap0.mapWrite
          (sampleAwaitility.withRetryOptions
            [RetryOption.timeoutOpt (60 * second)]).baselineValues
          "usersignups" 7).read sampleAwaitility.baselineValues) "usersignups" = 7) :=
  ⟨by decide,
    withRetryOptions_shares_baselineValues sampleAwaitility
      [RetryOption.timeoutOpt (60 * second)] sampleHeap0 "usersignups" 7 (by decide)⟩

/-- Claim C3: one poll attempt of `WaitUntiltMetricHasValue` reports done=true
iff the fetched value equals the expected value with a nil fetch error, or the
expected value is exactly 0 and the reported value is 0; in particular with
target 0 the attempt succeeds both on a clean fetch of 0 and when the metric
is not found (fetch reports value 0 with a non-nil error). -/
theorem waitUntiltMetricHasValue_done_iff (expectedValue value : Rat)
    (err : Option GoError) :
    (waitUntiltMetricHasValueDone expectedValue value err = true ↔
      ((value = expectedValue ∧ err = none) ∨ (expectedValue = 0 ∧ value = 0)))
    ∧ waitUntiltMetricHasValueDone 0 0 none = true
    ∧ waitUntiltMetricHasValueDone 0 0 err = true := by
  refine ⟨?_, by decide, ?_⟩
  · simp [waitUntiltMetricHasValueDone, Option.isNone_iff_eq_none]
  · simp [waitUntiltMetricHasValueDone]

/-- Claim C4 (counterexample): called directly with the odd-length label list
["status"], `WaitUntiltMetricHasValue` does not fail immediately: it enters
the poll loop (here: a fetch that keeps erroring, expected value 1, 3 ticks of
deadline) and ends in deadline expiry rather than in a hard input error. -/
theorem waitUntiltMetricHasValue_odd_labels_still_polls :
    (["status"].length % 2 = 1)
    ∧ waitUntiltMetricHasValue
        (fun _ _ _ => (0, some (GoError.transport "metric not found")))
        "families" 1 ["status"] 3
      = Except.ok (some GoError.waitTimeout) :=
  ⟨rfl, rfl⟩

/-- Claim C4 (amended): of the labeled-metric operations, `WaitForMetricDelta`
and `WaitForMetricBaseline` (both via `baselineKey`) and `GetMetricValueOrZero`
fail immediately with the hard input error on an odd-length label list,
without entering the poll loop; `WaitUntiltMetricHasValue` performs no such
validation and always proceeds into the poll loop. -/
theorem oddLabels_fatal_except_waitUntiltMetricHasValue
    (h : Heap) (a : Awaitility)
    (fetchPoll : String → List String → Nat → Rat × Option GoError)
    (fetchOnce : String → List String → Rat × Option GoError)
    (family : String) (delta expectedValue : Rat) (labels : List String)
    (fuel : Nat) (hodd : labels.length % 2 = 1) :
    waitForMetricDelta h a fetchPoll family delta labels fuel
      = Except.error labelPairsFatalMsg
    ∧ waitForMetricBaseline h a fetchPoll family labels fuel
      = Except.error labelPairsFatalMsg
    ∧ getMetricValueOrZero fetchOnce family labels
      = Except.error labelPairsFatalMsg
    ∧ ∃ r, waitUntiltMetricHasValue fetchPoll family expectedValue labels fuel
        = Except.ok r := by
  refine ⟨?_, ?_, ?_, ⟨_, rfl⟩⟩
  · simp [waitForMetricDelta, baselineKey, hodd]
  · simp [waitForMetricBaseline, baselineKey, hodd]
  · simp [getMetricValueOrZero, hodd]

/-- Claim C4 (witness): the amended theorem at the concrete odd label list
["activations"] with the sample heap, waiter and fetches. -/
theorem oddLabels_fatal_witness :
    (["activations"].length % 2 = 1)
    ∧ (waitForMetricDelta sampleHeap0 sampleAwaitility sampleFetch
          "usersignups" 2 ["activations"] 3 = Except.error labelPairsFatalMsg
      ∧ waitForMetricBaseline sampleHeap0 sampleAwaitility sampleFetch
          "usersignups" ["activations"] 3 = Except.error labelPairsFatalMsg
      ∧ getMetricValueOrZero sampleFetchOnce "usersignups" ["activations"]
          = Except.error labelPairsFatalMsg
      ∧ ∃ r, waitUntiltMetricHasValue sampleFetch "usersignups" 1 ["activations"] 3
          = Except.ok r) :=
  ⟨rfl, oddLabels_fatal_except_waitUntiltMetricHasValue sampleHeap0
    sampleAwaitility sampleFetch sampleFetchOnce "usersignups" 2 1
    ["activations"] 3 rfl⟩

/-- Claim C5: for a well-formed (even-length) label list, `WaitForMetricDelta`
delegates to `WaitUntiltMetricHasValue` with exactly the adjusted target
`baseline[key] + delta`, where `key` is the comma-join of the family and the
labels and the baseline of a key that no store entry carries is the silent
zero default. -/
theorem waitForMetricDelta_adjusted_target (h : Heap) (a : Awaitility)
    (fetch : String → List String → Nat → Rat × Option GoError)
    (family : String) (delta : Rat) (labels : List String) (fuel : Nat)
    (heven : labels.length % 2 = 0) :
    waitForMetricDelta h a fetch family delta labels fuel
      = waitUntiltMetricHasValue fetch family
          (mapIndex (h.read a.baselineValues) (stringsJoin (family :: labels) ",")
            + delta) labels fuel
    ∧ ∀ key, (∀ p ∈ h.read a.baselineValues, p.1 ≠ key) →
        mapIndex (h.read a.baselineValues) key = 0 := by
  constructor
  · simp [waitForMetricDelta, baselineKey, heven]
  · exact fun key hkey => mapIndex_eq_zero_of_not_mem _ key hkey

/-- Claim C5 (witness): the delta wait at the concrete sample waiter (empty
baseline store, so the baseline defaults to 0), family "usersignups", delta 2
and no labels. -/
theorem waitForMetricDelta_adjusted_target_witness :
    (([] : List String).length % 2 = 0)
    ∧ (waitForMetricDelta sampleHeap0 sampleAwaitility sampleFetch
          "usersignups" 2 [] 3
        = waitUntiltMetricHasValue sampleFetch "usersignups"
            (mapIndex (sampleHeap0.read sampleAwaitility.baselineValues)
              (stringsJoin ["usersignups"] ",") + 2) [] 3
      ∧ ∀ key, (∀ p ∈ sampleHeap0.read sampleAwaitility.baselineValues, p.1 ≠ key) →
          mapIndex (sampleHeap0.read sampleAwaitility.baselineValues) key = 0) :=
  ⟨rfl, waitForMetricDelta_adjusted_target sampleHeap0 sampleAwaitility
    sampleFetch "usersignups" 2 [] 3 rfl⟩

/-- Claim C6 (counterexample): `baselineKey` does not sort the label pairs:
the two orderings of the same pair set {cluster=member-1, state=active} yield
the two distinct keys "usersignups,cluster,member-1,state,active" and
"usersignups,state,active,cluster,member-1", so the key is not
permutation-invariant. -/
theorem baselineKey_not_label_order_invariant :
    baselineKey "usersignups" ["cluster", "member-1", "state", "active"]
      = Except.ok "usersignups,cluster,member-1,state,active"
    ∧ baselineKey "usersignups" ["state", "active", "cluster", "member-1"]
      = Except.ok "usersignups,state,active,cluster,member-1"
    ∧ ("usersignups,cluster,member-1,state,active" : String)
      ≠ "usersignups,state,active,cluster,member-1" :=
  ⟨rfl, rfl, by decide⟩

/-- Claim C6 (amended): the baseline-store key is built from the metric family
name and the label pairs in the order they are supplied, concatenated
deterministically with comma separators (no sorting), so equal argument lists
give equal keys but permuted pair lists generally do not. -/
theorem baselineKey_concatenates_in_argument_order (name : String)
    (labelAndValues : List String) (heven : labelAndValues.length % 2 = 0) :
    baselineKey name labelAndValues
      = Except.ok (stringsJoin (name :: labelAndValues) ",") := by
  simp [baselineKey, heven]

/-- Claim C6 (witness): the amended theorem at family "usersignups" and the
single pair cluster=member-1. -/
theorem baselineKey_concatenates_witness :
    (["cluster", "member-1"].length % 2 = 0)
    ∧ baselineKey "usersignups" ["cluster", "member-1"]
      = Except.ok (stringsJoin ["usersignups", "cluster", "member-1"] ",") :=
  ⟨rfl, baselineKey_concatenates_in_argument_order "usersignups"
    ["cluster", "member-1"] rfl⟩

/-- Claim C7: for every baseline store, waiter, fetch environment, family,
label list and deadline, `WaitForMetricBaseline` behaves identically to
`WaitForMetricDelta` with delta 0: both build the same key and wait for the
metric to equal the stored baseline value for that key. -/
theorem waitForMetricBaseline_eq_delta_zero (h : Heap) (a : Awaitility)
    (fetch : String → List String → Nat → Rat × Option GoError)
    (family : String) (labels : List String) (fuel : Nat) :
    waitForMetricBaseline h a fetch family labels fuel
      = waitForMetricDelta h a fetch family 0 labels fuel := by
  unfold waitForMetricBaseline waitForMetricDelta
  cases baselineKey family labels with
  | error msg => rfl
  | ok key => simp

/-- Claim C8: composite criteria evaluation is a pure conjunction — the
composite matches iff every criterion matches — and permuting the criteria
list never changes the composite result. -/
theorem matchToolchainClusterWaitCriterion_conjunction_perm
    (actual : ToolchainCluster) (l₁ l₂ : List ToolchainClusterWaitCriterion)
    (hperm : l₁.Perm l₂) :
    (matchToolchainClusterWaitCriterion actual l₁ = true ↔
      ∀ c ∈ l₁, c.Match actual = true)
    ∧ matchToolchainClusterWaitCriterion actual l₁
      = matchToolchainClusterWaitCriterion actual l₂ := by
  constructor
  · rw [matchToolchainClusterWaitCriterion_eq_all]
    exact List.all_eq_true
  · exact matchToolchainClusterWaitCriterion_perm_invariant actual hperm

/-- Claim C8 (witness): the theorem at the sample cluster and the two
orderings of the pair of sample criteria. -/
theorem matchToolchainClusterWaitCriterion_conjunction_perm_witness :
    (matchToolchainClusterWaitCriterion sampleToolchainCluster
        [sampleCriterionName, sampleCriterionCondition] = true ↔
      ∀ c ∈ [sampleCriterionName, sampleCriterionCondition],
        c.Match sampleToolchainCluster = true)
    ∧ matchToolchainClusterWaitCriterion sampleToolchainCluster
        [sampleCriterionName, sampleCriterionCondition]
      = matchToolchainClusterWaitCriterion sampleToolchainCluster
        [sampleCriterionCondition, sampleCriterionName] :=
  matchToolchainClusterWaitCriterion_conjunction_perm sampleToolchainCluster
    [sampleCriterionName, sampleCriterionCondition]
    [sampleCriterionCondition, sampleCriterionName]
    (List.Perm.swap sampleCriterionCondition sampleCriterionName [])

/-- Claim C9: whenever `WaitForToolchainClusterWithCondition` or
`WaitForNamedToolchainClusterWithCondition` is called with a non-nil cluster
condition, the poll deadline is the fixed 180-second
`ToolchainClusterConditionTimeout`, not the waiter's configured `Timeout` —
in particular it is unchanged by any list of `RetryOption` overrides
(including `TimeoutOption`) applied to the waiter. -/
theorem toolchainClusterCondition_waits_use_fixed_timeout (a : Awaitility)
    (opts : List RetryOption) (c : ToolchainClusterCondition) :
    waitForToolchainClusterWithConditionTimeout (a.withRetryOptions opts) (some c)
      = ToolchainClusterConditionTimeout
    ∧ waitForNamedToolchainClusterWithConditionTimeout (a.withRetryOptions opts)
        (some c) = ToolchainClusterConditionTimeout
    ∧ waitForToolchainClusterWithConditionTimeout a (some c)
      = ToolchainClusterConditionTimeout
    ∧ waitForNamedToolchainClusterWithConditionTimeout a (some c)
      = ToolchainClusterConditionTimeout
    ∧ ToolchainClusterConditionTimeout = 180 * second :=
  ⟨rfl, rfl, rfl, rfl, rfl⟩

/-- Claim C10: `WaitForDeploymentToGetReady` polls with deadline
`6 * a.Timeout`, which (for a positive timeout) differs from the `a.Timeout`
deadline that every other wait operation on the same instance passes to the
poll engine (the two condition-waits pass `a.Timeout` when their condition is
nil; with a non-nil condition they use the fixed constant, see the previous
theorem). -/
theorem waitForDeploymentToGetReady_sixfold_timeout (a : Awaitility)
    (htpos : 0 < a.timeout) :
    waitForDeploymentToGetReadyTimeout a = 6 * a.timeout
    ∧ waitForDeploymentToGetReadyTimeout a ≠ a.timeout
    ∧ waitForServiceTimeout a = a.timeout
    ∧ waitForRouteToBeAvailableTimeout a = a.timeout
    ∧ waitUntiltMetricHasValueTimeout a = a.timeout
    ∧ waitUntilMetricHasValueOrMoreTimeout a = a.timeout
    ∧ waitUntilMetricHasValueOrLessTimeout a = a.timeout
    ∧ getMemoryUsageTimeout a = a.timeout
    ∧ createNamespaceTimeout a = a.timeout
    ∧ waitForToolchainClusterTimeout a = a.timeout
    ∧ updateToolchainClusterTimeout a = a.timeout
    ∧ waitForToolchainClusterWithConditionTimeout a none = a.timeout
    ∧ waitForNamedToolchainClusterWithConditionTimeout a none = a.timeout := by
  refine ⟨rfl, ?_, rfl, rfl, rfl, rfl, rfl, rfl, rfl, rfl, rfl, rfl, rfl⟩
  simp only [waitForDeploymentToGetReadyTimeout]
  omega

/-- Claim C10 (witness): at the sample waiter (default 120s timeout) the
deployment wait's deadline really differs from the configured timeout. -/
theorem waitForDeploymentToGetReady_sixfold_timeout_witness :
    0 < sampleAwaitility.timeout
    ∧ waitForDeploymentToGetReadyTimeout sampleAwaitility ≠ sampleAwaitility.timeout :=
  ⟨by decide,
    (waitForDeploymentToGetReady_sixfold_timeout sampleAwaitility (by decide)).2.1⟩
